import Mathlib

/-!
# Verification of the care_mcp_server schema-to-tool pipeline

Shallow embedding of the core modules of the `care_mcp_server` repository:

* `whitelist.py`   — `WhitelistManager` (allow set, deny patterns, YAML export/import)
* `schema_parser.py` — `SchemaParser` (`get_operations`, `_extract_parameters`,
  `_extract_request_body`, `_get_param_type`, `_resolve_ref`)
* `enhancements.py` — `EnhancementManager` (static catalog, `get_enhancement`)
* `tool_generator.py` — `ToolGenerator` (`generate_tools`, `_generate_tool`,
  `_create_tool_function.api_call`, `_build_url`)
* the vendored `httpx` shim (`AsyncClient`, `Response`, `HTTPStatusError`)

YAML/JSON documents are modelled by the inductive `Json` below; Python dicts
become insertion-ordered association lists.  The embedding is typed: places
where the Python code would raise a `TypeError` on values of an unexpected
shape (e.g. calling `.get` on a non-dict) are modelled by the corresponding
failure default, since no claim exercises such inputs.
-/

set_option maxHeartbeats 1000000

namespace CareMcp

/-- YAML/JSON values as loaded by `yaml.safe_load`.  Python dicts are
insertion-ordered association lists. -/
inductive Json where
  | null : Json
  | bool (b : Bool) : Json
  | num (n : Int) : Json
  | str (s : String) : Json
  | arr (xs : List Json) : Json
  | obj (fields : List (String × Json)) : Json

/-- Python truthiness (`if x:`) on a JSON value. -/
def jTruthy : Json → Bool
  | .null => false
  | .bool b => b
  | .num n => n ≠ 0
  | .str s => s ≠ ""
  | .arr xs => !xs.isEmpty
  | .obj fs => !fs.isEmpty

/-- `dict.get(key)` / `key in dict`: first binding of `key` in an object.
Non-objects have no keys. -/
def jGet? (j : Json) (key : String) : Option Json :=
  match j with
  | .obj fs => fs.lookup key
  | _ => none

/-- `dict.get(key, default)`. -/
def jGetD (j : Json) (key : String) (default : Json) : Json :=
  (jGet? j key).getD default

/-- `key in dict`. -/
def jHasKey (j : Json) (key : String) : Bool :=
  (jGet? j key).isSome

/-- View a JSON value as a list (`[]` for non-lists). -/
def jArr : Json → List Json
  | .arr xs => xs
  | _ => []

/-- View a JSON value as an object field list (`[]` for non-objects). -/
def jFields : Json → List (String × Json)
  | .obj fs => fs
  | _ => []

/-- String-valued `dict.get(key, default)`; non-string values fall back to
the default (well-typed schemas carry strings in these slots). -/
def jGetStrD (j : Json) (key : String) (default : String) : String :=
  match jGet? j key with
  | some (.str s) => s
  | _ => default

/-- Python `str()` on the JSON values the pipeline coerces
(`str(value)` in `_build_url`). -/
def pyStr : Json → String
  | .null => "None"
  | .bool b => if b then "True" else "False"
  | .num n => toString n
  | .str s => s
  | .arr _ => "[...]"
  | .obj _ => "\x7b...\x7d"

/-- Python substring test `sub in s`. -/
def strContains (s sub : String) : Bool :=
  decide (sub.data <:+: s.data)

/-!  Python string primitives, embedded as structurally recursive functions
over `List Char` so that every definition evaluates inside the kernel. -/

/-- Worker for `pyReplace`; the fuel starts at the string length and the
`0` row is unreachable for a non-empty pattern. -/
def pyReplaceAux (old new : List Char) : Nat → List Char → List Char
  | _, [] => []
  | 0, s => s
  | fuel+1, c :: rest =>
    if old.isPrefixOf (c :: rest) then
      new ++ pyReplaceAux old new fuel ((c :: rest).drop old.length)
    else
      c :: pyReplaceAux old new fuel rest

/-- Python `s.replace(old, new)` for a non-empty `old` (the only use here
replaces `\x7bname\x7d` placeholders, which are never empty). -/
def pyReplace (s old new : String) : String :=
  ⟨pyReplaceAux old.data new.data s.data.length s.data⟩

/-- Python `s.upper()`. -/
def pyUpper (s : String) : String := ⟨s.data.map Char.toUpper⟩

/-- Worker for `pySplit`; same fuel discipline as `pyReplaceAux`. -/
def pySplitAux (sep : List Char) : Nat → List Char → List Char → List (List Char)
  | _, acc, [] => [acc.reverse]
  | 0, acc, s => [acc.reverse ++ s]
  | fuel+1, acc, c :: rest =>
    if sep.isPrefixOf (c :: rest) then
      acc.reverse :: pySplitAux sep fuel [] ((c :: rest).drop sep.length)
    else
      pySplitAux sep fuel (c :: acc) rest

/-- Python `s.split(sep)` for a non-empty separator:
`"a//b".split("/") == ["a", "", "b"]`, `"".split("/") == [""]`. -/
def pySplit (s sep : String) : List String :=
  (pySplitAux sep.data s.data.length [] s.data).map (fun cs => ⟨cs⟩)

/-- Python `s[n:]`. -/
def pyDrop (s : String) (n : Nat) : String := ⟨s.data.drop n⟩

/-- Python `s.startswith(pre)`. -/
def pyStartsWith (s pre : String) : Bool := pre.data.isPrefixOf s.data

/-- Python `sep.join(xs)`. -/
def strJoin (sep : String) : List String → String
  | [] => ""
  | [x] => x
  | x :: xs => x ++ sep ++ strJoin sep xs

/-- Python `s.rstrip("/")`. -/
def rstripSlash (s : String) : String :=
  ⟨(s.data.reverse.dropWhile (· = '/')).reverse⟩

/-! ## `whitelist.py` — `WhitelistManager` -/

/-- `WhitelistManager.DEFAULT_WHITELIST` (whitelist.py lines 11-45). -/
def DEFAULT_WHITELIST : List String := [
  "api_v1_facility_create",
  "api_v1_facility_list",
  "api_v1_facility_retrieve",
  "api_v1_facility_update",
  "api_v1_facility_partial_update",
  "api_v1_organization_create",
  "api_v1_organization_list",
  "api_v1_organization_retrieve",
  "api_v1_organization_update",
  "api_v1_organization_partial_update",
  "api_v1_facility_location_create",
  "api_v1_facility_location_list",
  "api_v1_facility_location_retrieve",
  "api_v1_facility_location_update",
  "api_v1_facility_location_partial_update",
  "api_v1_users_list",
  "api_v1_users_retrieve",
  "api_v1_users_getcurrentuser_retrieve",
  "api_v1_facility_users_list",
  "api_v1_facility_users_retrieve",
  "api_v1_patient_list",
  "api_v1_patient_retrieve",
  "api_v1_encounter_list",
  "api_v1_encounter_retrieve",
  "api_v1_resource_list",
  "api_v1_resource_retrieve"]

/-- `WhitelistManager.BLOCKED_PATTERNS` (whitelist.py lines 48-51). -/
def BLOCKED_PATTERNS : List String := ["_destroy", "_delete"]

/-- The state of a `WhitelistManager` instance: `self.whitelist` is a Python
set (modelled as a `Finset`); `blocked_patterns` is the class attribute
`BLOCKED_PATTERNS`, possibly shadowed on the instance by `import_from_yaml`. -/
structure WhitelistManager where
  whitelist : Finset String
  blocked_patterns : List String
  deriving DecidableEq

/-- `WhitelistManager.__init__(custom_whitelist)`.  Note the truthiness test
`if custom_whitelist:` — a `None` argument *and* an empty list both fall back
to `DEFAULT_WHITELIST`. -/
def mkWhitelistManager (custom_whitelist : Option (List String)) : WhitelistManager :=
  match custom_whitelist with
  | some l =>
    if l ≠ [] then
      { whitelist := l.toFinset, blocked_patterns := BLOCKED_PATTERNS }
    else
      { whitelist := DEFAULT_WHITELIST.toFinset, blocked_patterns := BLOCKED_PATTERNS }
  | none => { whitelist := DEFAULT_WHITELIST.toFinset, blocked_patterns := BLOCKED_PATTERNS }

/-- The manager built by `WhitelistManager()`. -/
def defaultWhitelistManager : WhitelistManager := mkWhitelistManager none

/-- `WhitelistManager.is_allowed` (whitelist.py lines 65-81): deny-pattern
substring check first, then allow-set membership. -/
def is_allowed (m : WhitelistManager) (operation_id : String) : Bool :=
  if m.blocked_patterns.any (fun pattern => strContains operation_id pattern) then
    false
  else
    operation_id ∈ m.whitelist

/-- `WhitelistManager.get_allowed_operations`: `sorted(list(self.whitelist))`. -/
def get_allowed_operations (m : WhitelistManager) : List String :=
  m.whitelist.sort (· ≤ ·)

/-- `WhitelistManager.add_operation`: `self.whitelist.add(operation_id)`. -/
def add_operation (m : WhitelistManager) (operation_id : String) : WhitelistManager :=
  { m with whitelist := insert operation_id m.whitelist }

/-- `WhitelistManager.remove_operation`: `self.whitelist.discard(operation_id)`
(no error when absent). -/
def remove_operation (m : WhitelistManager) (operation_id : String) : WhitelistManager :=
  { m with whitelist := m.whitelist.erase operation_id }

/-- The document written by `export_to_yaml` / read by `import_from_yaml`:
top-level keys `whitelist` and `blocked_patterns`, each possibly absent when
read back (`data.get(...)` / `"blocked_patterns" in data`). -/
structure PolicyDoc where
  whitelist : Option (List String)
  blocked_patterns : Option (List String)
  deriving DecidableEq

/-- `WhitelistManager.export_to_yaml` (whitelist.py lines 110-123), modelled
as producing the dumped document. -/
def export_to_yaml (m : WhitelistManager) : PolicyDoc :=
  { whitelist := some (get_allowed_operations m)
  , blocked_patterns := some m.blocked_patterns }

/-- `WhitelistManager.import_from_yaml` (whitelist.py lines 125-146),
modelled as consuming the parsed document. -/
def import_from_yaml (doc : PolicyDoc) : WhitelistManager :=
  let whitelist := doc.whitelist.getD DEFAULT_WHITELIST
  let manager := mkWhitelistManager (some whitelist)
  match doc.blocked_patterns with
  | some bp => { manager with blocked_patterns := bp }
  | none => manager

/-! ## `schema_parser.py` — `SchemaParser` -/

/-- `SchemaParser` state after a successful `fetch_schema`: `self.schema`
holds the loaded document (`self.paths`/`self.components` are the indexed
top-level sections, derived below). -/
structure SchemaParser where
  schema : Json

/-- `self.paths = self.schema.get("paths", {})`, iterated as `.items()`. -/
def SchemaParser.pathItems (p : SchemaParser) : List (String × Json) :=
  jFields (jGetD p.schema "paths" (.obj []))

/-- The loop body of `SchemaParser._resolve_ref`: walk the already-split
segments from `current`, returning `{}` at a missing key or a non-dict,
and the final value only when it is a dict. -/
def resolveSegs : Json → List String → List (String × Json)
  | current, [] =>
    match current with
    | .obj fs => fs
    | _ => []
  | current, part :: rest =>
    match current with
    | .obj fs =>
      match fs.lookup part with
      | some v => resolveSegs v rest
      | none => []
    | _ => []

/-- `SchemaParser._resolve_ref` (schema_parser.py lines 192-215). -/
def resolve_ref (p : SchemaParser) (ref : String) : List (String × Json) :=
  if pyStartsWith ref "#/" then
    resolveSegs p.schema (pySplit (pyDrop ref 2) "/")
  else
    []

/-- Specification-side walk for the Reference Resolver contract: descend
segment by segment from the document root, succeeding only when every
segment is a key of a mapping along the way.  Used to state the refinement
theorem for `resolve_ref`. -/
def walkSegs : Json → List String → Option Json
  | current, [] => some current
  | .obj fs, part :: rest =>
    match fs.lookup part with
    | some v => walkSegs v rest
    | none => none
  | _, _ :: _ => none

/-- The `type_map` of `SchemaParser._get_param_type`. -/
def type_map : List (String × String) :=
  [("string", "str"), ("integer", "int"), ("number", "float"),
   ("boolean", "bool"), ("array", "list"), ("object", "dict")]

/-- `SchemaParser._get_param_type` (schema_parser.py lines 166-190).
Note: an empty/falsy schema returns the literal `"string"`, not `"str"`. -/
def get_param_type (schema : Json) : String :=
  if !jTruthy schema then "string"
  else
    match jGetD schema "type" (.str "string") with
    | .str t => (type_map.lookup t).getD "str"
    | _ => "str"

/-- The `if "$ref" in param: param = self._resolve_ref(param["$ref"])`
idiom used throughout the parser.  A non-string `$ref` value would raise in
Python and is modelled by the resolver's failure value. -/
def resolveIfRef (p : SchemaParser) (param : Json) : Json :=
  match jGet? param "$ref" with
  | some (.str r) => .obj (resolve_ref p r)
  | some _ => .obj []
  | none => param

/-- One entry of a parameter bucket, as built by `_extract_parameters`.
Fields hold the raw values the Python dict literal stores. -/
structure ParamSpec where
  name : Json
  required : Json
  schema : Json
  description : Json
  type : String

/-- The `{"path": [...], "query": [...], "header": [...]}` result of
`_extract_parameters`. -/
structure Params where
  path : List ParamSpec
  query : List ParamSpec
  header : List ParamSpec

/-- The dict literal appended by `_extract_parameters` for one parameter. -/
def mkParamSpec (param : Json) : ParamSpec :=
  { name := jGetD param "name" .null
  , required := jGetD param "required" (.bool false)
  , schema := jGetD param "schema" (.obj [])
  , description := jGetD param "description" (.str "")
  , type := get_param_type (jGetD param "schema" (.obj [])) }

/-- `param.get("in", "query")`, as a bucket key: only a string value can
match one of the dict keys `path`/`query`/`header`. -/
def paramLocation (param : Json) : Option String :=
  match jGetD param "in" (.str "query") with
  | .str s => some s
  | _ => none

/-- `SchemaParser._extract_parameters` (schema_parser.py lines 75-106):
concatenate operation-level and path-level parameter lists, resolve `$ref`
entries, and append each parameter to the bucket named by its `in` field. -/
def extract_parameters (p : SchemaParser) (operation path_item : Json) : Params :=
  let all_params :=
    jArr (jGetD operation "parameters" (.arr [])) ++
    jArr (jGetD path_item "parameters" (.arr []))
  all_params.foldl
    (fun acc param0 =>
      let param := resolveIfRef p param0
      if paramLocation param = some "path" then
        { acc with path := acc.path ++ [mkParamSpec param] }
      else if paramLocation param = some "query" then
        { acc with query := acc.query ++ [mkParamSpec param] }
      else if paramLocation param = some "header" then
        { acc with header := acc.header ++ [mkParamSpec param] }
      else acc)
    ⟨[], [], []⟩

/-- Specification-side form of `_extract_parameters` following the spec text:
each bucket is the sublist of the concatenated (and `$ref`-resolved)
parameter list whose `in` field names that bucket; parameters with any
other location appear in no bucket. -/
def extractParametersSpec (p : SchemaParser) (operation path_item : Json) : Params :=
  let all_params :=
    jArr (jGetD operation "parameters" (.arr [])) ++
    jArr (jGetD path_item "parameters" (.arr []))
  let resolved := all_params.map (resolveIfRef p)
  { path := (resolved.filter (fun q => paramLocation q = some "path")).map mkParamSpec
  , query := (resolved.filter (fun q => paramLocation q = some "query")).map mkParamSpec
  , header := (resolved.filter (fun q => paramLocation q = some "header")).map mkParamSpec }

/-- One entry of the `properties` mapping built by `_extract_properties`. -/
structure PropertySpec where
  type : String
  required : Bool
  description : Json
  schema : Json

/-- `SchemaParser._extract_properties` (schema_parser.py lines 145-164).
`prop_name in required_fields` is membership of the string among the listed
required field names. -/
def extract_properties (p : SchemaParser) (bodySchema : Json) : List (String × PropertySpec) :=
  let required_fields := jArr (jGetD bodySchema "required" (.arr []))
  (jFields (jGetD bodySchema "properties" (.obj []))).map
    (fun entry =>
      let prop_schema := resolveIfRef p entry.2
      (entry.1,
        { type := get_param_type prop_schema
        , required := required_fields.any (fun j =>
            match j with
            | .str s => s = entry.1
            | _ => false)
        , description := jGetD prop_schema "description" (.str "")
        , schema := prop_schema }))

/-- The result dict of `_extract_request_body`. -/
structure RequestBody where
  required : Json
  schema : Json
  properties : List (String × PropertySpec)

/-- `SchemaParser._extract_request_body` (schema_parser.py lines 108-143):
`None` without a (truthy) `requestBody`, otherwise look for the JSON media
type (`or`-fallback to the charset variant) and resolve one level of `$ref`
on the body schema. -/
def extract_request_body (p : SchemaParser) (operation : Json) : Option RequestBody :=
  match jGet? operation "requestBody" with
  | none => none
  | some rb0 =>
    if !jTruthy rb0 then none
    else
      let request_body := resolveIfRef p rb0
      let content := jGetD request_body "content" (.obj [])
      let plainJson := jGetD content "application/json" .null
      let json_content :=
        if jTruthy plainJson then plainJson
        else jGetD content "application/json; charset=utf-8" .null
      if jTruthy json_content then
        let schema0 := jGetD json_content "schema" (.obj [])
        let bodySchema := resolveIfRef p schema0
        some { required := jGetD request_body "required" (.bool false)
             , schema := bodySchema
             , properties := extract_properties p bodySchema }
      else none

/-- The normalized operation record appended by `get_operations`. -/
structure Operation where
  operation_id : String
  path : String
  method : String
  summary : String
  description : String
  parameters : Params
  request_body : Option RequestBody
  responses : Json
  tags : Json

/-- The five HTTP methods iterated by `get_operations`. -/
def HTTP_METHODS : List String := ["get", "post", "put", "patch", "delete"]

/-- `operation.get("operationId")` followed by the truthiness guard
`if operation_id:`.  The pipeline assumes string-valued operation ids
(a non-string id would crash `is_allowed` downstream), so the model
restricts to the string case. -/
def operationIdOf (operation : Json) : Option String :=
  match jGet? operation "operationId" with
  | some (.str s) => if s = "" then none else some s
  | _ => none

/-- `SchemaParser.get_operations` (schema_parser.py lines 43-73). -/
def get_operations (p : SchemaParser) : List Operation :=
  p.pathItems.flatMap (fun pathEntry =>
    HTTP_METHODS.filterMap (fun method =>
      match jGet? pathEntry.2 method with
      | some operation =>
        (operationIdOf operation).map (fun oid =>
          { operation_id := oid
          , path := pathEntry.1
          , method := pyUpper method
          , summary := jGetStrD operation "summary" ""
          , description := jGetStrD operation "description" ""
          , parameters := extract_parameters p operation pathEntry.2
          , request_body := extract_request_body p operation
          , responses := jGetD operation "responses" (.obj [])
          , tags := jGetD operation "tags" (.arr []) })
      | none => none))

/-- `SchemaParser.get_operation_by_id` (schema_parser.py lines 217-231). -/
def get_operation_by_id (p : SchemaParser) (operation_id : String) : Option Operation :=
  (get_operations p).find? (fun op => op.operation_id == operation_id)

/-! ## `enhancements.py` — `EnhancementManager` -/

/-- `ToolEnhancement` dataclass (enhancements.py lines 7-14). -/
structure ToolEnhancement where
  title : String
  description : String
  tags : List String
  examples : List String
  deriving DecidableEq

/-- `EnhancementManager.ENHANCEMENTS` (enhancements.py lines 21-221): the
static catalog, keyed by unprefixed operation ids. -/
def ENHANCEMENTS : List (String × ToolEnhancement) := [
  ("facility_create",
   { title := "🏥 Create Healthcare Facility"
   , description := "Create a new healthcare facility in the Care system. This includes hospitals, clinics, COVID care centers, and other medical institutions. Provide details like facility name, type, address, and contact information."
   , tags := ["facility", "setup", "create", "healthcare"]
   , examples := ["Create a new hospital named \u0027City General Hospital\u0027",
                  "Add a COVID care center in downtown",
                  "Register a new clinic facility"] }),
  ("facility_list",
   { title := "🏥 List Healthcare Facilities"
   , description := "Retrieve a list of healthcare facilities registered in the system. You can filter by state, district, facility type, and other parameters. Useful for finding available facilities in a specific location."
   , tags := ["facility", "query", "list", "healthcare"]
   , examples := ["Show me all hospitals in Maharashtra",
                  "List COVID care centers in Kerala",
                  "Find all facilities in Mumbai district"] }),
  ("facility_retrieve",
   { title := "🏥 Get Facility Details"
   , description := "Retrieve detailed information about a specific healthcare facility. Provides complete facility data including address, contact, capacity, and features."
   , tags := ["facility", "query", "detail", "healthcare"]
   , examples := ["Get details of facility ID 123",
                  "Show me information about City General Hospital",
                  "What are the details of this facility?"] }),
  ("facility_update",
   { title := "🏥 Update Facility Information"
   , description := "Update information for an existing healthcare facility. You can modify facility details like name, address, contact info, capacity, and features."
   , tags := ["facility", "update", "modify", "healthcare"]
   , examples := ["Update the phone number for facility ID 123",
                  "Change the capacity of City General Hospital",
                  "Modify facility address"] }),
  ("organization_create",
   { title := "🏢 Create Organization"
   , description := "Create a new organization in the Care system. Organizations can represent health departments, NGOs, or other entities managing multiple facilities."
   , tags := ["organization", "setup", "create"]
   , examples := ["Create a new health department organization",
                  "Register an NGO organization",
                  "Add a new organization for managing facilities"] }),
  ("organization_list",
   { title := "🏢 List Organizations"
   , description := "Retrieve a list of organizations in the system. Organizations manage and coordinate healthcare facilities."
   , tags := ["organization", "query", "list"]
   , examples := ["Show me all organizations",
                  "List health department organizations",
                  "Find organizations in this state"] }),
  ("organization_retrieve",
   { title := "🏢 Get Organization Details"
   , description := "Retrieve detailed information about a specific organization."
   , tags := ["organization", "query", "detail"]
   , examples := ["Get details of organization ID 456",
                  "Show me information about State Health Department"] }),
  ("bed_create",
   { title := "🛏️ Create Bed"
   , description := "Create a new bed resource in a facility. Specify bed type (ICU, HDU, oxygen, etc.) and associated facility."
   , tags := ["bed", "setup", "create", "capacity"]
   , examples := ["Add 10 ICU beds to facility",
                  "Create oxygen beds in this hospital",
                  "Register new HDU beds"] }),
  ("bed_list",
   { title := "🛏️ List Beds"
   , description := "Retrieve a list of beds with their availability status. Filter by facility, bed type, and availability."
   , tags := ["bed", "query", "list", "capacity"]
   , examples := ["Show available ICU beds",
                  "List all beds in this facility",
                  "Find oxygen beds in the district"] }),
  ("bed_retrieve",
   { title := "🛏️ Get Bed Details"
   , description := "Retrieve detailed information about a specific bed resource."
   , tags := ["bed", "query", "detail", "capacity"]
   , examples := ["Get details of bed ID 789",
                  "Show me information about this bed"] }),
  ("bed_update",
   { title := "🛏️ Update Bed Information"
   , description := "Update bed information including availability status and metadata."
   , tags := ["bed", "update", "modify", "capacity"]
   , examples := ["Update bed availability", "Mark bed as occupied", "Change bed type"] }),
  ("users_list",
   { title := "👤 List Users"
   , description := "Retrieve a list of users in the system. Useful for user management and access control."
   , tags := ["user", "query", "list"]
   , examples := ["Show all users", "List doctors in the facility", "Find staff members"] }),
  ("users_retrieve",
   { title := "👤 Get User Details"
   , description := "Retrieve detailed information about a specific user."
   , tags := ["user", "query", "detail"]
   , examples := ["Get user details for ID 101",
                  "Show me Dr. Smith\u0027s information"] }),
  ("users_getcurrentuser",
   { title := "👤 Get Current User"
   , description := "Retrieve information about the currently authenticated user."
   , tags := ["user", "query", "auth"]
   , examples := ["Who am I logged in as?",
                  "Show my user information",
                  "Get current user details"] }),
  ("state_list",
   { title := "🗺️ List States"
   , description := "Retrieve a list of states/provinces in the system. Useful for geographic filtering and organization."
   , tags := ["geography", "query", "list"]
   , examples := ["List all states", "Show available states", "What states are in the system?"] }),
  ("district_list",
   { title := "🗺️ List Districts"
   , description := "Retrieve a list of districts within a state. Helps with location-based queries."
   , tags := ["geography", "query", "list"]
   , examples := ["List districts in Maharashtra",
                  "Show all districts",
                  "What districts are available?"] }),
  ("localBody_list",
   { title := "🗺️ List Local Bodies"
   , description := "Retrieve a list of local bodies (municipalities, corporations) within a district."
   , tags := ["geography", "query", "list"]
   , examples := ["List local bodies in this district",
                  "Show municipalities",
                  "What local bodies are available?"] }),
  ("ward_list",
   { title := "🗺️ List Wards"
   , description := "Retrieve a list of wards within a local body. Most granular level of geographic organization."
   , tags := ["geography", "query", "list"]
   , examples := ["List wards in this local body",
                  "Show all wards",
                  "What wards are available?"] })]

/-- `EnhancementManager.get_enhancement` (enhancements.py lines 223-233):
`self.ENHANCEMENTS.get(operation_id)` on the class-level table. -/
def get_enhancement (operation_id : String) : Option ToolEnhancement :=
  ENHANCEMENTS.lookup operation_id

/-- `EnhancementManager.has_enhancement` (enhancements.py lines 235-245):
`operation_id in self.ENHANCEMENTS`. -/
def has_enhancement (operation_id : String) : Bool :=
  (ENHANCEMENTS.lookup operation_id).isSome

/-! ## The vendored `httpx` shim (`src/httpx/__init__.py`)

The network itself (`urllib.request.urlopen`) is an external capability,
modelled as an oracle from the final request to one of the three outcomes
the shim distinguishes: a response, an `HTTPError` (carrying an error
response), or a `URLError`. -/

/-- `httpx.Response`.  `jsonResult = none` models `response.json()` raising
a JSON decode error on this body; `some j` models it returning `j`. -/
structure Response where
  status_code : Nat
  text : String
  jsonResult : Option Json

/-- The final request handed to `urllib.request.urlopen` by the shim. -/
structure Request where
  method : String
  url : String
  headers : List (String × String)
  body : Option (List (String × Json))

/-- Outcome of the underlying `urlopen` call. -/
inductive NetOutcome where
  | success (resp : Response)
  | httpError (resp : Response)
  | urlError (msg : String)

/-- The network oracle. -/
def Net := Request → NetOutcome

/-- Exceptions the shim's request path can raise:
`HTTPStatusError(f"HTTP {exc.code}", response)` and `RuntimeError(str(exc))`
from `_perform_request`, and the `AttributeError` raised by the
`data = json.dumps(json)` line of `_request`, where the parameter `json`
shadows the stdlib module. -/
inductive PyExn where
  | httpStatusError (msg : String) (resp : Response)
  | runtimeError (msg : String)
  | attributeError (msg : String)

/-- Python `str(e)` on those exceptions. -/
def pyExnStr : PyExn → String
  | .httpStatusError msg _ => msg
  | .runtimeError msg => msg
  | .attributeError msg => msg

/-- `AsyncClient._perform_request` (httpx shim lines 121-133). -/
def perform_request (net : Net) (req : Request) : Except PyExn Response :=
  match net req with
  | .success r => .ok r
  | .httpError r => .error (.httpStatusError ("HTTP " ++ toString r.status_code) r)
  | .urlError msg => .error (.runtimeError msg)

/-- Overwriting insert for a string-keyed dict (Python `d[k] = v`). -/
def dictInsert {α : Type} (d : List (String × α)) (k : String) (v : α) : List (String × α) :=
  if d.any (fun kv => kv.1 = k) then
    d.map (fun kv => if kv.1 = k then (k, v) else kv)
  else
    d ++ [(k, v)]

/-- Python `d.update(upd)`. -/
def dictUpdate {α : Type} (d upd : List (String × α)) : List (String × α) :=
  upd.foldl (fun acc kv => dictInsert acc kv.1 kv.2) d

/-- Python `d.setdefault(k, v)`. -/
def dictSetdefault {α : Type} (d : List (String × α)) (k : String) (v : α) : List (String × α) :=
  if d.any (fun kv => kv.1 = k) then d else d ++ [(k, v)]

/-- `urllib.parse.urlencode` on the `None`-filtered query dict, modelled
without percent-escaping (no claim exercises a non-empty query). -/
def urlencode (params : List (String × Json)) : String :=
  strJoin "&"
    ((params.filter (fun kv => match kv.2 with | .null => false | _ => true)).map
      (fun kv => kv.1 ++ "=" ++ pyStr kv.2))

/-- `AsyncClient._build_url` (httpx shim lines 106-119), for a client built
with the default empty `base_url`.  The `urlparse(base).query` test for the
separator is modelled by the presence of `?` in the URL. -/
def client_build_url (base_url url : String) (params : List (String × Json)) : String :=
  let base :=
    if pyStartsWith url "http://" || pyStartsWith url "https://" then url
    else if pyStartsWith url "/" then base_url ++ url
    else if base_url ≠ "" then base_url ++ "/" ++ url
    else url
  if params.isEmpty then base
  else
    let query := urlencode params
    let separator := if strContains base "?" then "&" else "?"
    base ++ separator ++ query

/-- The header assembly of `AsyncClient._request` for a client with empty
default headers: `{"Accept": "application/json"}` updated with the
per-call headers, plus `Content-Type` set (if absent) when a body is sent.
The `Content-Type` line sits *after* the crashing `json.dumps` line, so in
the program it only ever runs with `hasBody = false`. -/
def mkFinalHeaders (headers : List (String × String)) (hasBody : Bool) : List (String × String) :=
  let final := dictUpdate [("Accept", "application/json")] headers
  if hasBody then dictSetdefault final "Content-Type" "application/json" else final

/-- `AsyncClient._request` (httpx shim lines 83-104) for a default client:
build the full URL, assemble headers, and perform the request against the
network oracle.  `client.get/post/put/patch/delete` all delegate here.
The body branch `data = json.dumps(json).encode("utf-8")` (line 100)
crashes: the parameter `json` shadows the stdlib module, so every
non-`None` body raises `AttributeError: 'dict' object has no attribute
'dumps'` before any request is performed — only body-less requests ever
reach the network. -/
def client_request (net : Net) (method url : String)
    (json : Option (List (String × Json))) (params : List (String × Json))
    (headers : List (String × String)) : Except PyExn Response :=
  let full_url := client_build_url "" url params
  match json with
  | some _ =>
    .error (.attributeError "\u0027dict\u0027 object has no attribute \u0027dumps\u0027")
  | none =>
    perform_request net
      { method := method, url := full_url
      , headers := mkFinalHeaders headers false, body := none }

/-! ## `tool_generator.py` — `ToolGenerator` -/

/-- `ToolGenerator._build_url` (tool_generator.py lines 222-240): replace
every `{name}` placeholder, then prefix with the rstripped base URL. -/
def build_url (base_url path : String) (path_params : List (String × Json)) : String :=
  let url_path := path_params.foldl
    (fun u kv => pyReplace u ("\x7b" ++ kv.1 ++ "\x7d") (pyStr kv.2)) path
  rstripSlash base_url ++ url_path

/-- The structured envelope returned by a generated tool.  Absent dict keys
are `none`. -/
structure Envelope where
  success : Bool
  status : Option Nat := none
  data : Option Json := none
  error : Option String := none

/-- One `for param in parameters.get(...)` loop of `api_call`: collect the
declared parameters that are present in the call's keyword arguments
(`if param_name in kwargs: d[param_name] = kwargs[param_name]`).  Only a
string-valued `name` can match a keyword (a `None` name never does). -/
def collectParams (specs : List ParamSpec) (kwargs : List (String × Json)) :
    List (String × Json) :=
  specs.foldl
    (fun acc param =>
      match param.name with
      | .str n =>
        match kwargs.lookup n with
        | some v => dictInsert acc n v
        | none => acc
      | _ => acc) []

/-- The body-collection loop of `api_call`: when the operation declares a
request body, every keyword argument not claimed by the path or query dict
becomes a body entry. -/
def collectBody (request_body : Option RequestBody)
    (path_params query_params kwargs : List (String × Json)) :
    List (String × Json) :=
  if request_body.isSome then
    kwargs.filter (fun kv =>
      !(path_params.any (fun pv => pv.1 = kv.1)) &&
      !(query_params.any (fun qv => qv.1 = kv.1)))
  else []

/-- `ToolGenerator._create_tool_function.api_call`
(tool_generator.py lines 112-215).

* `base_url` is `self.config.care_base_url`;
* `headers` is the result of `await self.auth_handler.get_headers()`
  (the Auth capability, external to the core);
* `net` is the network oracle behind the vendored `httpx` client;
* `kwargs` is the keyword-argument mapping of the invocation.

The Python body is one big `try`, whose `except Exception` clause returns
`{"success": False, "error": str(e)}`; the only exceptions in the model are
the ones `httpx` raises, so the dispatch result is matched at the end. -/
def api_call (net : Net) (base_url : String) (headers : List (String × String))
    (path method : String) (parameters : Params) (request_body : Option RequestBody)
    (kwargs : List (String × Json)) : Envelope :=
  let path_params := collectParams parameters.path kwargs
  let query_params := collectParams parameters.query kwargs
  let body_data := collectBody request_body path_params query_params kwargs
  let url := build_url base_url path path_params
  let result : Option (Except PyExn Response) :=
    if method = "GET" then
      some (client_request net "GET" url none query_params headers)
    else if method = "POST" then
      some (client_request net "POST" url
        (if !body_data.isEmpty then some body_data else none) query_params headers)
    else if method = "PUT" then
      some (client_request net "PUT" url
        (if !body_data.isEmpty then some body_data else none) query_params headers)
    else if method = "PATCH" then
      some (client_request net "PATCH" url
        (if !body_data.isEmpty then some body_data else none) query_params headers)
    else if method = "DELETE" then
      some (client_request net "DELETE" url none query_params headers)
    else none
  match result with
  | none => { success := false, error := some ("Unsupported HTTP method: " ++ method) }
  | some (.ok response) =>
    if 200 ≤ response.status_code ∧ response.status_code < 300 then
      { success := true
      , status := some response.status_code
      , data := some ((response.jsonResult).getD (.str response.text)) }
    else
      { success := false
      , status := some response.status_code
      , error := some response.text }
  | some (.error e) =>
    { success := false, error := some (pyExnStr e) }

/-- A `(name, description)` registration accepted by the FastMCP tool sink
(`self.mcp.tool(name=..., description=...)(tool_func)`). -/
structure RegisteredTool where
  name : String
  description : String
  deriving DecidableEq

/-- The name/description selection of `ToolGenerator._generate_tool`
(tool_generator.py lines 68-77): prefer the enhancement catalog entry,
else `summary or description or f"Execute {operation_id}"`. -/
def tool_description (op : Operation) : String :=
  match get_enhancement op.operation_id with
  | some e => e.title ++ "\n\n" ++ e.description
  | none =>
    if op.summary ≠ "" then op.summary
    else if op.description ≠ "" then op.description
    else "Execute " ++ op.operation_id

/-- The registration performed by `_generate_tool` for one operation. -/
def mkRegisteredTool (op : Operation) : RegisteredTool :=
  { name := op.operation_id, description := tool_description op }

/-- `ToolGenerator.generate_tools` (tool_generator.py lines 33-53), for a
freshly constructed generator (`generated_count = 0`): the registered tools
in registration order, paired with the returned count. -/
def generate_tools (p : SchemaParser) (wm : WhitelistManager) :
    List RegisteredTool × Nat :=
  (get_operations p).foldl
    (fun acc op =>
      if is_allowed wm op.operation_id then
        (acc.1 ++ [mkRegisteredTool op], acc.2 + 1)
      else acc)
    ([], 0)

/-! ## Theorems -/

/-- C1: for every operation id containing `_destroy` or `_delete` as a
substring, `is_allowed` returns `false` under the default deny patterns,
regardless of the allow set — the deny-pattern check overrides allow-set
membership. -/
theorem is_allowed_blocked_overrides_allow (allow : Finset String) (operation_id : String)
    (h : strContains operation_id "_destroy" = true ∨
         strContains operation_id "_delete" = true) :
    is_allowed { whitelist := allow, blocked_patterns := BLOCKED_PATTERNS }
      operation_id = false := by
  have hany : BLOCKED_PATTERNS.any (fun pattern => strContains operation_id pattern) = true := by
    rcases h with h | h <;> simp [BLOCKED_PATTERNS, h]
  simp [is_allowed, hany]

/-- C1 witness: adding `facility_destroy` to the default allow set still
yields `is_allowed("facility_destroy") = false`. -/
theorem is_allowed_blocked_overrides_allow_witness :
    is_allowed (add_operation defaultWhitelistManager "facility_destroy")
      "facility_destroy" = false :=
  is_allowed_blocked_overrides_allow
    (insert "facility_destroy" defaultWhitelistManager.whitelist)
    "facility_destroy" (Or.inl (by decide))

/-- C9: `add_operation` and `remove_operation` change only the allow set
(deny patterns are untouched); `add` yields the old set plus the id,
`remove` the old set minus the id, and removing an absent id is a no-op. -/
theorem add_remove_affect_only_allow (m : WhitelistManager) (operation_id : String) :
    (add_operation m operation_id).blocked_patterns = m.blocked_patterns ∧
    (remove_operation m operation_id).blocked_patterns = m.blocked_patterns ∧
    (add_operation m operation_id).whitelist = m.whitelist ∪ {operation_id} ∧
    (remove_operation m operation_id).whitelist = m.whitelist \ {operation_id} ∧
    (operation_id ∉ m.whitelist → remove_operation m operation_id = m) := by
  refine ⟨rfl, rfl, ?_, ?_, ?_⟩
  · simp [add_operation, Finset.insert_eq, Finset.union_comm]
  · simp [remove_operation, Finset.erase_eq]
  · intro h
    simp [remove_operation, Finset.erase_eq_of_not_mem h]

/-- C9 witness at a concrete manager and id (the id is not in the default
allow set, so the no-op clause applies). -/
theorem add_remove_affect_only_allow_witness :
    (add_operation defaultWhitelistManager "custom_op").blocked_patterns
        = defaultWhitelistManager.blocked_patterns ∧
    (remove_operation defaultWhitelistManager "custom_op").blocked_patterns
        = defaultWhitelistManager.blocked_patterns ∧
    (add_operation defaultWhitelistManager "custom_op").whitelist
        = defaultWhitelistManager.whitelist ∪ {"custom_op"} ∧
    (remove_operation defaultWhitelistManager "custom_op").whitelist
        = defaultWhitelistManager.whitelist \ {"custom_op"} ∧
    ("custom_op" ∉ defaultWhitelistManager.whitelist →
        remove_operation defaultWhitelistManager "custom_op" = defaultWhitelistManager) :=
  add_remove_affect_only_allow defaultWhitelistManager "custom_op"

/-- A manager whose allow set is empty (e.g. after removing every id). -/
def emptyAllowManager : WhitelistManager :=
  { whitelist := ∅, blocked_patterns := BLOCKED_PATTERNS }

/-- C3 counterexample: exporting a policy with an *empty* allow set and
importing the result does not restore the empty allow set — the truthiness
test in `__init__` makes the import fall back to `DEFAULT_WHITELIST`. -/
theorem export_import_not_roundtrip_on_empty :
    (import_from_yaml (export_to_yaml emptyAllowManager)).whitelist
      ≠ emptyAllowManager.whitelist := by
  have hdoc : export_to_yaml emptyAllowManager
      = { whitelist := some [], blocked_patterns := some BLOCKED_PATTERNS } := by
    simp [export_to_yaml, get_allowed_operations, emptyAllowManager]
  rw [hdoc]
  have hmem : "api_v1_facility_create"
      ∈ (import_from_yaml
          { whitelist := some [], blocked_patterns := some BLOCKED_PATTERNS }).whitelist := by
    simp [import_from_yaml, mkWhitelistManager, DEFAULT_WHITELIST]
  intro h
  rw [h] at hmem
  simp [emptyAllowManager] at hmem

/-- C3 amended: for every policy whose allow set is non-empty, exporting
and re-importing yields a policy with the same allow set and the same deny
patterns. -/
theorem export_import_roundtrip_nonempty (m : WhitelistManager)
    (h : m.whitelist ≠ ∅) :
    (import_from_yaml (export_to_yaml m)).whitelist = m.whitelist ∧
    (import_from_yaml (export_to_yaml m)).blocked_patterns = m.blocked_patterns := by
  have hsort : (m.whitelist.sort (· ≤ ·)) ≠ [] := by
    intro hnil
    apply h
    have hts := Finset.sort_toFinset (· ≤ ·) m.whitelist
    rw [hnil] at hts
    simpa using hts.symm
  have hmk : mkWhitelistManager (some (m.whitelist.sort (· ≤ ·)))
      = { whitelist := (m.whitelist.sort (· ≤ ·)).toFinset
        , blocked_patterns := BLOCKED_PATTERNS } := by
    unfold mkWhitelistManager
    dsimp only
    rw [if_pos hsort]
  have himp : import_from_yaml (export_to_yaml m)
      = { whitelist := (m.whitelist.sort (· ≤ ·)).toFinset
        , blocked_patterns := m.blocked_patterns } := by
    unfold import_from_yaml export_to_yaml get_allowed_operations
    dsimp only
    rw [Option.getD_some, hmk]
  rw [himp]
  exact ⟨Finset.sort_toFinset _ _, rfl⟩

/-- C3 amended witness: the default policy round-trips. -/
theorem export_import_roundtrip_nonempty_witness :
    defaultWhitelistManager.whitelist ≠ ∅ ∧
    ((import_from_yaml (export_to_yaml defaultWhitelistManager)).whitelist
        = defaultWhitelistManager.whitelist ∧
     (import_from_yaml (export_to_yaml defaultWhitelistManager)).blocked_patterns
        = defaultWhitelistManager.blocked_patterns) :=
  ⟨by decide, export_import_roundtrip_nonempty defaultWhitelistManager (by decide)⟩

/-- The resolver loop refines the segment walk: it returns the walked-to
mapping when the walk reaches one, and `[]` otherwise. -/
theorem resolveSegs_eq_walkSegs (parts : List String) (j : Json) :
    resolveSegs j parts =
      match walkSegs j parts with
      | some (.obj fs) => fs
      | _ => [] := by
  induction parts generalizing j with
  | nil => cases j <;> rfl
  | cons part rest ih =>
    cases j with
    | obj fs =>
      cases h : fs.lookup part with
      | some v => simp [resolveSegs, walkSegs, h, ih]
      | none => simp [resolveSegs, walkSegs, h]
    | null => rfl
    | bool b => rfl
    | num n => rfl
    | str s => rfl
    | arr xs => rfl

/-- C4: `_resolve_ref` returns exactly the mapping reached by walking the
`#/`-rooted segments when every segment resolves to a mapping along the
way, and the empty mapping for a ref of any other form or a walk that hits
a missing segment or a non-mapping value; being a total function, it never
raises. -/
theorem resolve_ref_spec (p : SchemaParser) (ref : String) :
    resolve_ref p ref =
      if pyStartsWith ref "#/" then
        match walkSegs p.schema (pySplit (pyDrop ref 2) "/") with
        | some (.obj fs) => fs
        | _ => []
      else [] := by
  unfold resolve_ref
  cases h : pyStartsWith ref "#/"
  · simp [h]
  · simp only [h, if_true]
    exact resolveSegs_eq_walkSegs _ _

/-- The parameter-bucketing fold, characterized against an arbitrary
starting accumulator: each bucket extends by the location-filtered
sublist. -/
theorem extractParamsStep_foldl (p : SchemaParser) (l : List Json) (acc : Params) :
    l.foldl
      (fun acc param0 =>
        let param := resolveIfRef p param0
        if paramLocation param = some "path" then
          { acc with path := acc.path ++ [mkParamSpec param] }
        else if paramLocation param = some "query" then
          { acc with query := acc.query ++ [mkParamSpec param] }
        else if paramLocation param = some "header" then
          { acc with header := acc.header ++ [mkParamSpec param] }
        else acc) acc
    = { path := acc.path ++
          ((l.map (resolveIfRef p)).filter (fun q => paramLocation q = some "path")).map mkParamSpec
      , query := acc.query ++
          ((l.map (resolveIfRef p)).filter (fun q => paramLocation q = some "query")).map mkParamSpec
      , header := acc.header ++
          ((l.map (resolveIfRef p)).filter (fun q => paramLocation q = some "header")).map mkParamSpec } := by
  induction l generalizing acc with
  | nil => simp
  | cons a l ih =>
    rw [List.foldl_cons, ih]
    by_cases h1 : paramLocation (resolveIfRef p a) = some "path"
    · simp [h1]
    · by_cases h2 : paramLocation (resolveIfRef p a) = some "query"
      · simp [h1, h2]
      · by_cases h3 : paramLocation (resolveIfRef p a) = some "header"
        · simp [h1, h2, h3]
        · simp [h1, h2, h3]

/-- A declared `cookie` parameter, as it would appear in a schema. -/
def cookieParamJson : Json :=
  .obj [("name", .str "session"), ("in", .str "cookie"), ("required", .bool true)]

/-- C7: `_extract_parameters` equals its declarative reading — the
concatenation of operation-level and path-level parameter lists, each
(after `$ref` resolution) placed in the bucket named by its `in` field
when that is `path`, `query` or `header`; and a parameter with any other
location (e.g. `cookie`) lands in no bucket, as witnessed concretely. -/
theorem extract_parameters_eq_spec :
    (∀ (p : SchemaParser) (operation path_item : Json),
      extract_parameters p operation path_item = extractParametersSpec p operation path_item)
    ∧ extract_parameters { schema := .obj [] }
        (.obj [("parameters", .arr [cookieParamJson])]) (.obj [])
      = { path := [], query := [], header := [] } := by
  constructor
  · intro p operation path_item
    unfold extract_parameters extractParametersSpec
    rw [extractParamsStep_foldl]
    simp
  · rfl

/-- A schema with one path carrying both a `get` and a `post` operation,
each with its own `operationId`. -/
def twoMethodParser : SchemaParser :=
  { schema := .obj [("paths", .obj [("/api/v1/facility/", .obj
      [ ("get", .obj [("operationId", .str "api_v1_facility_list")])
      , ("post", .obj [("operationId", .str "api_v1_facility_create")]) ])])] }

/-- A schema whose single method entry lacks an `operationId`. -/
def noIdParser : SchemaParser :=
  { schema := .obj [("paths", .obj [("/api/v1/facility/", .obj
      [ ("get", .obj [("summary", .str "listing without an id")]) ])])] }

/-- The first Operation record `get_operations` yields on `twoMethodParser`. -/
def twoMethodListOp : Operation :=
  { operation_id := "api_v1_facility_list"
  , path := "/api/v1/facility/"
  , method := "GET"
  , summary := ""
  , description := ""
  , parameters := { path := [], query := [], header := [] }
  , request_body := none
  , responses := .obj []
  , tags := .arr [] }

/-- The second Operation record `get_operations` yields on `twoMethodParser`. -/
def twoMethodCreateOp : Operation :=
  { operation_id := "api_v1_facility_create"
  , path := "/api/v1/facility/"
  , method := "POST"
  , summary := ""
  , description := ""
  , parameters := { path := [], query := [], header := [] }
  , request_body := none
  , responses := .obj []
  , tags := .arr [] }

/-- C6: `get_operations` yields exactly one record per (path, method) pair
among the five methods whose entry carries a truthy `operationId` — with
that id extracted — and none for entries lacking one: the projection of
the result onto (path, method, id) is the straightforward enumeration, a
path with a `get` and a `post` gives exactly two records, and a method
entry without `operationId` gives zero. -/
theorem get_operations_characterization :
    (∀ p : SchemaParser,
      (get_operations p).map (fun op => (op.path, op.method, op.operation_id))
        = p.pathItems.flatMap (fun pathEntry =>
            HTTP_METHODS.filterMap (fun method =>
              match jGet? pathEntry.2 method with
              | some operation =>
                (operationIdOf operation).map
                  (fun oid => (pathEntry.1, pyUpper method, oid))
              | none => none)))
    ∧ get_operations twoMethodParser = [twoMethodListOp, twoMethodCreateOp]
    ∧ get_operations noIdParser = [] := by
  refine ⟨?_, rfl, rfl⟩
  intro p
  unfold get_operations
  rw [List.map_flatMap]
  congr 1
  funext pathEntry
  rw [List.map_filterMap]
  congr 1
  funext method
  cases hm : jGet? pathEntry.2 method with
  | none => rfl
  | some operation =>
    dsimp only
    cases ho : operationIdOf operation with
    | none => rfl
    | some oid => rfl

/-- The registration fold of `generate_tools`, characterized against an
arbitrary starting accumulator. -/
theorem generate_tools_foldl (wm : WhitelistManager) (l : List Operation)
    (acc : List RegisteredTool × Nat) :
    l.foldl
      (fun acc op =>
        if is_allowed wm op.operation_id then
          (acc.1 ++ [mkRegisteredTool op], acc.2 + 1)
        else acc) acc
    = (acc.1 ++ (l.filter (fun op => is_allowed wm op.operation_id)).map mkRegisteredTool,
       acc.2 + (l.filter (fun op => is_allowed wm op.operation_id)).length) := by
  induction l generalizing acc with
  | nil => simp
  | cons a l ih =>
    rw [List.foldl_cons, ih]
    by_cases h : is_allowed wm a.operation_id = true
    · simp [h, List.filter_cons]
      omega
    · simp [h, List.filter_cons]

/-- The registered-tool list of `generate_tools` is the gate-filtered
operation list, mapped through the name/description construction. -/
theorem generate_tools_fst (p : SchemaParser) (wm : WhitelistManager) :
    (generate_tools p wm).1
      = ((get_operations p).filter (fun op => is_allowed wm op.operation_id)).map
          mkRegisteredTool := by
  unfold generate_tools
  rw [generate_tools_foldl]
  simp

/-- C8: `generate_tools` registers exactly the operations the gate allows,
in the parser's enumeration order, returns a count equal to the number of
registered tools, and an operation the gate rejects contributes no
registered tool bearing its id. -/
theorem generate_tools_spec :
    (∀ (p : SchemaParser) (wm : WhitelistManager),
      (generate_tools p wm).1
        = ((get_operations p).filter (fun op => is_allowed wm op.operation_id)).map
            mkRegisteredTool
      ∧ (generate_tools p wm).2 = (generate_tools p wm).1.length)
    ∧ (∀ (p : SchemaParser) (wm : WhitelistManager) (op : Operation),
        op ∈ get_operations p → is_allowed wm op.operation_id = false →
        ∀ t ∈ (generate_tools p wm).1, t.name ≠ op.operation_id) := by
  constructor
  · intro p wm
    refine ⟨generate_tools_fst p wm, ?_⟩
    have h2 : (generate_tools p wm).2
        = ((get_operations p).filter (fun op => is_allowed wm op.operation_id)).length := by
      unfold generate_tools
      rw [generate_tools_foldl]
      simp
    rw [h2, generate_tools_fst, List.length_map]
  · intro p wm op _ hfalse t ht hname
    rw [generate_tools_fst] at ht
    obtain ⟨op2, hop2, hmk⟩ := List.mem_map.mp ht
    have hall : is_allowed wm op2.operation_id = true := (List.mem_filter.mp hop2).2
    have hn : t.name = op2.operation_id := by rw [← hmk]; rfl
    rw [hname] at hn
    rw [← hn] at hall
    rw [hfalse] at hall
    exact Bool.false_ne_true hall

/-- The allow-list used in the C8 witness: only the GET operation. -/
def listOnlyWm : WhitelistManager :=
  mkWhitelistManager (some ["api_v1_facility_list"])

/-- C8 witness: on the two-operation schema with an allow-list containing
only the list operation, the create operation (not allowed, not
deny-matched) is registered under no tool name. -/
theorem generate_tools_spec_witness :
    twoMethodCreateOp ∈ get_operations twoMethodParser ∧
    is_allowed listOnlyWm twoMethodCreateOp.operation_id = false ∧
    ∀ t ∈ (generate_tools twoMethodParser listOnlyWm).1,
      t.name ≠ twoMethodCreateOp.operation_id := by
  have hmem : twoMethodCreateOp ∈ get_operations twoMethodParser := by
    rw [(rfl : get_operations twoMethodParser = [twoMethodListOp, twoMethodCreateOp])]
    exact .tail _ (.head _)
  exact ⟨hmem, by decide,
    generate_tools_spec.2 twoMethodParser listOnlyWm twoMethodCreateOp hmem (by decide)⟩

/-- C10: every id in the built-in default allow-list carries the `api_v1_`
prefix, the enhancement catalog (keyed by unprefixed ids) has no entry for
any of them (`get` is absent, `has` is false), and consequently every tool
generated under the default policy and default catalog takes its
description from the schema summary/description/`Execute {operation_id}`
fallback, never from the catalog. -/
theorem default_ids_have_no_enhancement :
    (∀ id ∈ DEFAULT_WHITELIST, pyStartsWith id "api_v1_" = true) ∧
    (∀ id ∈ DEFAULT_WHITELIST, get_enhancement id = none ∧ has_enhancement id = false) ∧
    (∀ op : Operation, is_allowed defaultWhitelistManager op.operation_id = true →
      tool_description op =
        (if op.summary ≠ "" then op.summary
         else if op.description ≠ "" then op.description
         else "Execute " ++ op.operation_id)) := by
  have hmain : ∀ id ∈ DEFAULT_WHITELIST, get_enhancement id = none := by decide
  refine ⟨by decide, fun id hid => ⟨hmain id hid, ?_⟩, ?_⟩
  · have h := hmain id hid
    unfold get_enhancement at h
    simp [has_enhancement, h]
  · intro op hallow
    have hmem : op.operation_id ∈ DEFAULT_WHITELIST := by
      by_cases hb : (defaultWhitelistManager.blocked_patterns.any
          (fun pattern => strContains op.operation_id pattern)) = true
      · simp [is_allowed, hb] at hallow
      · simp [is_allowed, hb] at hallow
        simpa [defaultWhitelistManager, mkWhitelistManager, List.mem_toFinset]
          using hallow
    unfold tool_description
    rw [hmain op.operation_id hmem]

/-- An operation record under the default policy, with empty summary and
description, as used in the C10 witness. -/
def facilityCreateBareOp : Operation :=
  { operation_id := "api_v1_facility_create"
  , path := "/api/v1/facility/"
  , method := "POST"
  , summary := ""
  , description := ""
  , parameters := { path := [], query := [], header := [] }
  , request_body := none
  , responses := .obj []
  , tags := .arr [] }

/-- C10 witness at `api_v1_facility_create`: no catalog entry, and the
generated description is the `Execute {operation_id}` fallback. -/
theorem default_ids_have_no_enhancement_witness :
    pyStartsWith "api_v1_facility_create" "api_v1_" = true ∧
    (get_enhancement "api_v1_facility_create" = none ∧
     has_enhancement "api_v1_facility_create" = false) ∧
    tool_description facilityCreateBareOp = "Execute api_v1_facility_create" := by
  refine ⟨default_ids_have_no_enhancement.1 "api_v1_facility_create" (by decide),
          default_ids_have_no_enhancement.2.1 "api_v1_facility_create" (by decide),
          ?_⟩
  rw [default_ids_have_no_enhancement.2.2 facilityCreateBareOp (by decide)]
  decide

/-- For a client constructed with the default empty `base_url` and an empty
query dict, the shim's URL builder returns the URL unchanged, whatever its
form. -/
theorem client_build_url_empty (url : String) :
    client_build_url "" url [] = url := by
  unfold client_build_url
  dsimp only
  split
  · split
    · rfl
    · split
      · rfl
      · split
        · rename_i h
          exact absurd rfl h
        · rfl
  · rename_i h
    exact absurd rfl h

/-- A schema with one whitelisted GET operation at `/api/v1/facility/{id}/`
with a single declared path parameter `id` and no request body. -/
def facilityRetrieveParser : SchemaParser :=
  { schema := .obj [("paths", .obj [("/api/v1/facility/\x7bid\x7d/", .obj
      [ ("get", .obj
          [ ("operationId", .str "api_v1_facility_retrieve")
          , ("parameters", .arr [ .obj
              [ ("name", .str "id")
              , ("in", .str "path")
              , ("required", .bool true)
              , ("schema", .obj [("type", .str "integer")]) ] ]) ]) ])])] }

/-- The Operation record extracted from `facilityRetrieveParser`. -/
def facilityRetrieveOp : Operation :=
  { operation_id := "api_v1_facility_retrieve"
  , path := "/api/v1/facility/\x7bid\x7d/"
  , method := "GET"
  , summary := ""
  , description := ""
  , parameters :=
      { path := [ { name := .str "id"
                  , required := .bool true
                  , schema := .obj [("type", .str "integer")]
                  , description := .str ""
                  , type := "int" } ]
      , query := []
      , header := [] }
  , request_body := none
  , responses := .obj []
  , tags := .arr [] }

/-- C5: on the one-operation schema, the parser yields exactly the expected
Operation (whitelisted by default); invoking the generated tool's call with
`{id: 123}` builds the request URL `base_url ++ "/api/v1/facility/123/"`
(the `{id}` placeholder replaced by the string-coerced value), sends no
query string and no body — visible in the request the network oracle
receives — and on a 200 response whose body parses as JSON `J` returns
`{success: true, status: 200, data: J}`. -/
theorem generated_get_tool_success
    (base_url : String) (headers : List (String × String)) (net : Net)
    (t : String) (J : Json)
    (hb : rstripSlash base_url = base_url)
    (hnet : net { method := "GET"
                , url := base_url ++ "/api/v1/facility/123/"
                , headers := mkFinalHeaders headers false
                , body := none }
            = .success { status_code := 200, text := t, jsonResult := some J }) :
    get_operations facilityRetrieveParser = [facilityRetrieveOp]
    ∧ is_allowed defaultWhitelistManager facilityRetrieveOp.operation_id = true
    ∧ api_call net base_url headers facilityRetrieveOp.path facilityRetrieveOp.method
        facilityRetrieveOp.parameters facilityRetrieveOp.request_body
        [("id", .num 123)]
      = { success := true, status := some 200, data := some J, error := none }
    ∧ (∀ net2 : Net,
        net2 { method := "GET"
             , url := base_url ++ "/api/v1/facility/123/"
             , headers := mkFinalHeaders headers false
             , body := none }
          = .success { status_code := 200, text := t, jsonResult := none } →
        api_call net2 base_url headers facilityRetrieveOp.path facilityRetrieveOp.method
          facilityRetrieveOp.parameters facilityRetrieveOp.request_body
          [("id", .num 123)]
        = { success := true, status := some 200, data := some (.str t), error := none }) := by
  have hpp : collectParams facilityRetrieveOp.parameters.path [("id", Json.num 123)]
      = [("id", Json.num 123)] := rfl
  have hqp : collectParams facilityRetrieveOp.parameters.query [("id", Json.num 123)]
      = [] := rfl
  have hurl : build_url base_url facilityRetrieveOp.path [("id", Json.num 123)]
      = base_url ++ "/api/v1/facility/123/" := by
    have h1 : build_url base_url facilityRetrieveOp.path [("id", Json.num 123)]
        = rstripSlash base_url ++ "/api/v1/facility/123/" := rfl
    rw [h1, hb]
  have key : ∀ (net2 : Net) (r : Response),
      net2 { method := "GET"
           , url := base_url ++ "/api/v1/facility/123/"
           , headers := mkFinalHeaders headers false
           , body := none } = .success r →
      api_call net2 base_url headers facilityRetrieveOp.path facilityRetrieveOp.method
        facilityRetrieveOp.parameters facilityRetrieveOp.request_body [("id", .num 123)]
      = if 200 ≤ r.status_code ∧ r.status_code < 300 then
          { success := true, status := some r.status_code
          , data := some (r.jsonResult.getD (.str r.text)), error := none }
        else
          { success := false, status := some r.status_code
          , data := none, error := some r.text } := by
    intro net2 r hr
    unfold api_call client_request perform_request
    simp only [hpp, hqp, hurl]
    simp [client_build_url_empty, hr, facilityRetrieveOp]
  refine ⟨rfl, by decide, ?_, ?_⟩
  · rw [key net _ hnet]
    simp
  · intro net2 h2
    rw [key net2 _ h2]
    simp

/-- C5 witness: a concrete base URL, empty auth headers, and a network
oracle answering 200 with a JSON object body. -/
theorem generated_get_tool_success_witness :
    rstripSlash "https://careapi.ohc.network" = "https://careapi.ohc.network" ∧
    ((fun _ => NetOutcome.success
        { status_code := 200, text := "\x7b\x7d", jsonResult := some (.obj []) } : Net)
      { method := "GET"
      , url := "https://careapi.ohc.network" ++ "/api/v1/facility/123/"
      , headers := mkFinalHeaders [] false
      , body := none }
      = .success { status_code := 200, text := "\x7b\x7d", jsonResult := some (.obj []) }) ∧
    (get_operations facilityRetrieveParser = [facilityRetrieveOp]
     ∧ is_allowed defaultWhitelistManager facilityRetrieveOp.operation_id = true
     ∧ api_call
         (fun _ => NetOutcome.success
           { status_code := 200, text := "\x7b\x7d", jsonResult := some (.obj []) })
         "https://careapi.ohc.network" [] facilityRetrieveOp.path facilityRetrieveOp.method
         facilityRetrieveOp.parameters facilityRetrieveOp.request_body
         [("id", .num 123)]
       = { success := true, status := some 200, data := some (.obj []), error := none }
     ∧ (∀ net2 : Net,
         net2 { method := "GET"
              , url := "https://careapi.ohc.network" ++ "/api/v1/facility/123/"
              , headers := mkFinalHeaders [] false
              , body := none }
           = .success { status_code := 200, text := "\x7b\x7d", jsonResult := none } →
         api_call net2 "https://careapi.ohc.network" [] facilityRetrieveOp.path
           facilityRetrieveOp.method facilityRetrieveOp.parameters
           facilityRetrieveOp.request_body [("id", .num 123)]
         = { success := true, status := some 200
           , data := some (.str "\x7b\x7d"), error := none })) :=
  ⟨rfl, rfl,
   generated_get_tool_success "https://careapi.ohc.network" []
     (fun _ => NetOutcome.success
       { status_code := 200, text := "\x7b\x7d", jsonResult := some (.obj []) })
     "\x7b\x7d" (.obj []) rfl rfl⟩

/-- A network oracle on which every request makes the transport raise its
typed status error (`HTTPStatusError`) for a 404 response. -/
def always404Net : Net :=
  fun _ => .httpError
    { status_code := 404
    , text := "\x7b\"detail\": \"Not found.\"\x7d"
    , jsonResult := some (.obj [("detail", .str "Not found.")]) }

/-- C2 counterexample: when the transport raises its typed status error for
a 404, the generated tool's envelope is `{success: false, error: "HTTP 404"}`
with **no** `status` field — the catch-all `except Exception` clause builds
only `success` and `error` — so the claimed `status: 404` entry is absent. -/
theorem api_call_404_missing_status :
    api_call always404Net "https://careapi.ohc.network" [] facilityRetrieveOp.path "GET"
        facilityRetrieveOp.parameters facilityRetrieveOp.request_body [("id", .num 123)]
      = { success := false, status := none, data := none, error := some "HTTP 404" }
    ∧ (api_call always404Net "https://careapi.ohc.network" [] facilityRetrieveOp.path "GET"
        facilityRetrieveOp.parameters facilityRetrieveOp.request_body
        [("id", .num 123)]).status ≠ some 404 :=
  ⟨rfl, by decide⟩

/-- C2 amended: for every invocation of a generated tool with one of the
five supported methods against a transport that raises its typed status
error: when the call actually dispatches a request — always for GET and
DELETE, and for POST/PUT/PATCH exactly when the collected body is empty —
the callable returns `{success: false, error: "HTTP <status>"}`, whose
error text contains the status code but which carries no `status` (and no
`data`) field, the status error being consumed by the generic exception
handler.  With a nonempty body the shim's `json.dumps(json)`
name-shadowing bug raises `AttributeError` before the transport is
consulted, and the callable returns that message in the same shape of
envelope.  Being a total function into `Envelope`, the call never
propagates an exception. -/
theorem api_call_transport_error_envelope
    (net : Net) (resp : Response) (base_url : String)
    (headers : List (String × String)) (path method : String)
    (parameters : Params) (request_body : Option RequestBody)
    (kwargs : List (String × Json))
    (hm : method = "GET" ∨ method = "POST" ∨ method = "PUT" ∨
          method = "PATCH" ∨ method = "DELETE")
    (hnet : ∀ req, net req = .httpError resp) :
    api_call net base_url headers path method parameters request_body kwargs
      = (if method = "GET" ∨ method = "DELETE" ∨
            (collectBody request_body
              (collectParams parameters.path kwargs)
              (collectParams parameters.query kwargs) kwargs).isEmpty = true then
          { success := false, status := none, data := none
          , error := some ("HTTP " ++ toString resp.status_code) }
        else
          { success := false, status := none, data := none
          , error := some "\u0027dict\u0027 object has no attribute \u0027dumps\u0027" })
    ∧ strContains ("HTTP " ++ toString resp.status_code)
        (toString resp.status_code) = true := by
  constructor
  · unfold api_call client_request perform_request
    rcases hm with h | h | h | h | h <;> subst h <;>
      rcases hbd : (collectBody request_body
          (collectParams parameters.path kwargs)
          (collectParams parameters.query kwargs) kwargs) with _ | ⟨kv, rest⟩ <;>
      simp [hbd, hnet, pyExnStr]
  · unfold strContains
    have hsuf : (toString resp.status_code).data
        <:+ ("HTTP " ++ toString resp.status_code).data := by
      rw [(rfl : ("HTTP " ++ toString resp.status_code).data
        = "HTTP ".data ++ (toString resp.status_code).data)]
      exact List.suffix_append _ _
    exact decide_eq_true hsuf.isInfix

/-- C2 amended witness: against an always-404 transport, a GET invocation
(body-less, so it dispatches) yields exactly
`{success: false, error: "HTTP 404"}`, while a POST invocation with a
nonempty body never reaches the transport and yields the AttributeError
envelope. -/
theorem api_call_transport_error_envelope_witness :
    ("GET" = "GET" ∨ "GET" = "POST" ∨ "GET" = "PUT" ∨
     "GET" = "PATCH" ∨ "GET" = "DELETE") ∧
    (∀ req, always404Net req = .httpError
      { status_code := 404
      , text := "\x7b\"detail\": \"Not found.\"\x7d"
      , jsonResult := some (.obj [("detail", .str "Not found.")]) }) ∧
    (api_call always404Net "https://careapi.ohc.network" []
        "/api/v1/facility/\x7bid\x7d/" "GET"
        { path := [], query := [], header := [] } none []
      = { success := false, status := none, data := none
        , error := some ("HTTP " ++ toString (404 : Nat)) }
     ∧ strContains ("HTTP " ++ toString (404 : Nat)) (toString (404 : Nat)) = true) ∧
    api_call always404Net "https://careapi.ohc.network" []
        "/api/v1/facility/" "POST"
        { path := [], query := [], header := [] }
        (some { required := .bool true, schema := .obj [], properties := [] })
        [("name", .str "Clinic")]
      = { success := false, status := none, data := none
        , error := some "\u0027dict\u0027 object has no attribute \u0027dumps\u0027" } :=
  ⟨Or.inl rfl, fun _ => rfl,
   api_call_transport_error_envelope always404Net
     { status_code := 404
     , text := "\x7b\"detail\": \"Not found.\"\x7d"
     , jsonResult := some (.obj [("detail", .str "Not found.")]) }
     "https://careapi.ohc.network" [] "/api/v1/facility/\x7bid\x7d/" "GET"
     { path := [], query := [], header := [] } none []
     (Or.inl rfl) (fun _ => rfl),
   (api_call_transport_error_envelope always404Net
     { status_code := 404
     , text := "\x7b\"detail\": \"Not found.\"\x7d"
     , jsonResult := some (.obj [("detail", .str "Not found.")]) }
     "https://careapi.ohc.network" [] "/api/v1/facility/" "POST"
     { path := [], query := [], header := [] }
     (some { required := .bool true, schema := .obj [], properties := [] })
     [("name", .str "Clinic")]
     (Or.inr (Or.inl rfl)) (fun _ => rfl)).1⟩

end CareMcp
